import Mathlib

/-!
Shallow embedding of `caliban/docker.py`: Dockerfile composition, `docker
build` output parsing, tag/push, and the run orchestration layer.

Python strings become Lean `String`s (with `List Char` used for the
character-level parsing of build output), numeric user/group ids become
`Nat`, optional values become `Option`, and a Python function body that can
raise an exception is modelled by an `Option`/`Except` result.  Ambient host
state (environment variables, uid/gid, user name, home and current working
directory, filesystem existence checks) is packaged into explicit parameters
so that composition is a pure function of its inputs, and the external
container engine is modelled as a function from the invoked command to its
result.
-/

/-! ## Constants (module-level constants of `caliban.docker`) -/

def DEV_CONTAINER_ROOT : String := "gcr.io/blueshift-playground/blueshift"

def DEFAULT_WORKDIR : String := "/usr/app"

def CREDS_DIR : String := "/.creds"

/-! ## Modelled collaborators -/

/-- Modelled from the spec: `caliban.config` (not under `src/`) supplies the
job-mode enumeration; the spec describes BuildMode as a closed enumeration
{CPU, GPU}, "supplied once per invocation". -/
inductive JobMode where
  | cpu
  | gpu
deriving DecidableEq

/-- Modelled from the spec: `caliban.config.gpu` (not under `src/`) tests
whether the job mode is the GPU member of the closed enumeration {CPU, GPU}. -/
def JobMode.isGpuMode : JobMode → Bool
  | .gpu => true
  | .cpu => false

/-- Host environment, "read, never written" per the spec: numeric user id,
group id, user name (`u.current_user()`), the `SHELL` environment variable
(`none` when unset), the home directory (`Path.home()`), and the current
working directory (`os.getcwd()`). -/
structure Env where
  uid : Nat
  gid : Nat
  username : String
  shell : Option String
  home : String
  cwd : String

/-! ## Base image selection -/

def base_image_suffix (job_mode : JobMode) : String :=
  if job_mode.isGpuMode then "gpu" else "cpu"

def base_image_id (job_mode : JobMode) : String :=
  let base_suffix := base_image_suffix job_mode
  DEV_CONTAINER_ROOT ++ ":" ++ base_suffix

/-! ## Dependency helpers -/

def extras_string (extras : List String) : String :=
  let ret := "."
  if extras.length > 0 then ret ++ "[" ++ String.intercalate "," extras ++ "]"
  else ret

/-- Source function `base_extras`; `fs` models `os.path.exists`, and
`extras.getD []` models Python's `extras or []`. -/
def base_extras (fs : String → Bool) (job_mode : JobMode) (path : String)
    (extras : Option (List String)) : Option (List String) :=
  let ret := none
  if fs path then
    let base := extras.getD []
    let extra := if job_mode.isGpuMode then "gpu" else "cpu"
    if base.contains extra then some base else some (extra :: base)
  else ret

/-- Source function `default_shell`: `os.environ.get("SHELL", "/bin/bash")`,
with the environment read from the explicit `Env`. -/
def default_shell (env : Env) : String :=
  env.shell.getD "/bin/bash"

/-! ## Identifier Extractor

Character-level models of the Python built-ins used by `docker_image_id`:
`str.splitlines()` (restricted to `'\n'` line boundaries, which is the only
line terminator the build output stream contains) and no-argument
`str.split()`.  An out-of-range `[-1]` index (an `IndexError`) is modelled by
`Option.none` via `List.getLast?`. -/

/-- Accumulator-style model of Python `str.splitlines()` on a nonempty
character list: a final `'\n'` terminates the last line without adding an
empty one. -/
def splitlinesAux (cur : List Char) : List Char → List (List Char)
  | [] => [cur.reverse]
  | c :: rest =>
    if c = '\n' then
      if rest = [] then [cur.reverse]
      else cur.reverse :: splitlinesAux [] rest
    else splitlinesAux (c :: cur) rest

/-- Python `str.splitlines()`: the empty string yields no lines at all. -/
def pysplitlines (s : List Char) : List (List Char) :=
  if s = [] then [] else splitlinesAux [] s

/-- Accumulator-style model of Python no-argument `str.split()`: split on
runs of whitespace, discarding empty tokens. -/
def splitWsAux (cur : List Char) : List Char → List (List Char)
  | [] => if cur = [] then [] else [cur.reverse]
  | c :: rest =>
    if c.isWhitespace then
      if cur = [] then splitWsAux [] rest
      else cur.reverse :: splitWsAux [] rest
    else splitWsAux (c :: cur) rest

/-- Python no-argument `str.split()`. -/
def pysplit (s : List Char) : List (List Char) :=
  splitWsAux [] s

/-- Source function `docker_image_id`:
`ImageId(output.splitlines()[-1].split()[-1])`.  A `none` result models the
`IndexError` raised by `[-1]` on an empty list. -/
def docker_image_id (output : String) : Option String :=
  ((pysplitlines output.data).getLast?.bind
    (fun line => (pysplit line).getLast?)).map String.mk

/-! ## Fragment Library -/

/-- Model of `u.Package` (declared in `caliban.util`, outside `src/`): per the spec, a
root path to copy, an entrypoint command vector, and either a module name or
a script path used as the final argument (`package.main_module or
package.script_path` in the source). -/
structure Package where
  executable : List String
  package_path : String
  main_module : Option String
  script_path : String

/-- JSON string escaping as performed by `json.dumps` on the entrypoint
argument vector (quotes print as double quotes). -/
def jsonEscapeChar (c : Char) : String :=
  if c = '"' then "\\\""
  else if c = '\\' then "\\\\"
  else if c = '\n' then "\\n"
  else if c = '\t' then "\\t"
  else if c = '\r' then "\\r"
  else String.mk [c]

def jsonString (s : String) : String :=
  "\"" ++ String.join (s.data.map jsonEscapeChar) ++ "\""

/-- Model of `json.dumps` applied to a list of strings. -/
def jsonDumps (l : List String) : String :=
  "[" ++ String.intercalate ", " (l.map jsonString) ++ "]"

def _dependency_entries (workdir : String) (user_id user_group : Nat)
    (requirements_path : Option String) (setup_extras : Option (List String)) :
    String :=
  let ret := ""
  let ret :=
    match setup_extras with
    | some es =>
      ret ++ "\nCOPY --chown=" ++ toString user_id ++ ":" ++ toString user_group
        ++ " setup.py " ++ workdir
        ++ "\nRUN /bin/bash -c \"pip install " ++ extras_string es ++ "\"\n"
    | none => ret
  let ret :=
    match requirements_path with
    | some rp =>
      ret ++ "\nCOPY --chown=" ++ toString user_id ++ ":" ++ toString user_group
        ++ " " ++ rp ++ " " ++ workdir
        ++ "\nRUN /bin/bash -c \"pip install -r " ++ rp ++ "\"\n"
    | none => ret
  ret

def _package_entries (workdir : String) (user_id user_group : Nat)
    (package : Package) : String :=
  let owner := toString user_id ++ ":" ++ toString user_group
  let arg := package.main_module.getD package.script_path
  let entrypoint_s := jsonDumps (package.executable ++ [arg])
  "\n# Copy project code into the docker container.\nCOPY --chown=" ++ owner
    ++ " " ++ package.package_path ++ " " ++ workdir ++ "/" ++ package.package_path
    ++ "\n\n# Declare an entrypoint that actually runs the container.\nENTRYPOINT "
    ++ entrypoint_s ++ "\n  "

def _credentials_entries (credentials_path : String) (user_id user_group : Nat)
    (docker_credentials_dir : Option String) : String :=
  let docker_credentials_dir := docker_credentials_dir.getD CREDS_DIR
  let container_creds := docker_credentials_dir ++ "/credentials.json"
  "\nCOPY --chown=" ++ toString user_id ++ ":" ++ toString user_group ++ " "
    ++ credentials_path ++ " " ++ container_creds
    ++ "\n\n# Use the credentials file to activate gcloud, gsutil inside the container.\nRUN gcloud auth activate-service-account --key-file="
    ++ container_creds
    ++ "\n\nENV GOOGLE_APPLICATION_CREDENTIALS=" ++ container_creds ++ "\n"

def _notebook_entries (version : Option String) : String :=
  let version_suffix :=
    match version with
    | some v => "==" ++ v
    | none => ""
  "\nRUN pip install jupyterlab" ++ version_suffix ++ "\n"

def _custom_shell_entries (shell_cmd : Option String) (user_id user_group : Nat) :
    String :=
  let ret := ""
  match shell_cmd with
  | some cmd =>
    if cmd = "/bin/zsh" then
      "\nUSER root\n\nRUN apt-get update &&       apt-get install -y --no-install-recommends zsh &&       rm -rf /var/lib/apt/lists/*\n\nUSER "
        ++ toString user_id ++ ":" ++ toString user_group ++ "\n"
    else ret
  | none => ret

def _copy_dir_entry (workdir : String) (user_id user_group : Nat)
    (dirname : String) : String :=
  let owner := toString user_id ++ ":" ++ toString user_group
  "# Copy " ++ dirname ++ " into the Docker container.\nCOPY --chown=" ++ owner
    ++ " " ++ dirname ++ " " ++ workdir ++ "/" ++ dirname ++ "\n"

def _extra_dir_entries (workdir : String) (user_id user_group : Nat)
    (extra_dirs : List String) : String :=
  extra_dirs.foldl
    (fun ret d => ret ++ "\n" ++ _copy_dir_entry workdir user_id user_group d) ""

/-! ## Specification Composer -/

/-- The preamble block of `_dockerfile_template` (the initial f-string:
base image, group/user creation, directory creation, HOME, WORKDIR, USER). -/
def dockerfilePreamble (base_image : String) (uid gid : Nat)
    (username workdir : String) : String :=
  "\nFROM " ++ base_image
    ++ "\n\n# Create the same group we're using on the host machine.\nRUN groupadd --gid "
    ++ toString gid ++ " " ++ toString gid
    ++ "\n\n# Create the user by name.\nRUN useradd --no-create-home -u "
    ++ toString uid ++ " -g " ++ toString gid ++ " --shell /bin/bash " ++ username
    ++ "\n\n# The directory is created by root. This sets permissions so that any user can\n# access the folder.\nRUN mkdir -m 777 "
    ++ workdir ++ " " ++ CREDS_DIR ++ " /home/" ++ username
    ++ "\n\nENV HOME=/home/" ++ username
    ++ "\n\nWORKDIR " ++ workdir
    ++ "\n\nUSER " ++ toString uid ++ ":" ++ toString gid ++ "\n"

def _dockerfile_template (env : Env) (job_mode : JobMode)
    (workdir : Option String) (base_image_fn : Option (JobMode → String))
    (package : Option Package) (requirements_path : Option String)
    (setup_extras : Option (List String)) (credentials_path : Option String)
    (jupyter_version : Option String) (inject_notebook : Bool)
    (shell_cmd : Option String) (extra_dirs : Option (List String)) : String :=
  let uid := env.uid
  let gid := env.gid
  let username := env.username
  let workdir := workdir.getD DEFAULT_WORKDIR
  let base_image_fn := base_image_fn.getD base_image_id
  let base_image := base_image_fn job_mode
  let dockerfile := dockerfilePreamble base_image uid gid username workdir
  let dockerfile :=
    dockerfile ++ _dependency_entries workdir uid gid requirements_path setup_extras
  let dockerfile :=
    if inject_notebook then dockerfile ++ _notebook_entries jupyter_version
    else dockerfile
  let dockerfile :=
    match credentials_path with
    | some cp => dockerfile ++ _credentials_entries cp uid gid none
    | none => dockerfile
  let dockerfile :=
    match extra_dirs with
    | some ds => dockerfile ++ _extra_dir_entries workdir uid gid ds
    | none => dockerfile
  let dockerfile := dockerfile ++ _custom_shell_entries shell_cmd uid gid
  let dockerfile :=
    match package with
    | some p => dockerfile ++ _package_entries workdir uid gid p
    | none => dockerfile
  dockerfile

/-- The fixed fragment sequence of spec section 4.2, steps 2 through 7: each
entry is the corresponding fragment's text when its option is selected and
the empty string otherwise.  Written from the spec's ordering, to be compared
with the source-mirrored `_dockerfile_template`. -/
def orderedFragments (workdir : String) (uid gid : Nat)
    (package : Option Package) (requirements_path : Option String)
    (setup_extras : Option (List String)) (credentials_path : Option String)
    (jupyter_version : Option String) (inject_notebook : Bool)
    (shell_cmd : Option String) (extra_dirs : Option (List String)) :
    List String :=
  [ _dependency_entries workdir uid gid requirements_path setup_extras,
    if inject_notebook then _notebook_entries jupyter_version else "",
    (credentials_path.map (fun cp => _credentials_entries cp uid gid none)).getD "",
    (extra_dirs.map (fun ds => _extra_dir_entries workdir uid gid ds)).getD "",
    _custom_shell_entries shell_cmd uid gid,
    (package.map (fun p => _package_entries workdir uid gid p)).getD "" ]

/-! ## Build Driver -/

/-- The payload of a `subprocess.CalledProcessError`: the failed process's
captured stdout and stderr. -/
structure ProcError where
  output : String
  stderr : String

/-- What one call to `build_image` did.  `outcome` is the Python-level result
of the call: `.ok v` models the function returning value `v` (`none` being
Python `None`), `.error e` models an uncaught exception propagating out. -/
structure BuildResult where
  cmd : List String
  dockerfile : String
  outcome : Except String (Option String)
  logged : List String

/-- The keyword arguments `build_image` forwards to `_dockerfile_template`. -/
structure BuildKwargs where
  workdir : Option String := none
  base_image_fn : Option (JobMode → String) := none
  package : Option Package := none
  requirements_path : Option String := none
  setup_extras : Option (List String) := none
  jupyter_version : Option String := none
  inject_notebook : Bool := false
  shell_cmd : Option String := none
  extra_dirs : Option (List String) := none

/-- Source function `build_image`.  `engine` models the single
`u.capture_stdout` invocation of `docker build`: `.ok output` is a zero exit
with captured stdout, `.error e` a `subprocess.CalledProcessError`.
`u.TempCopy` (defined in `caliban.util`, outside `src/`) is modelled from the
spec as a scoped copy whose content equals the original credentials file, so
the path passed on is the credentials path itself.  On engine failure the
source logs `e.output` and `e.stderr` and falls off the end of the function,
returning Python `None`. -/
def build_image (env : Env) (job_mode : JobMode)
    (engine : Except ProcError String) (credentials_path : Option String)
    (kw : BuildKwargs) : BuildResult :=
  let cred_path := credentials_path
  let cmd := ["docker", "build", "--rm", "-f-", env.cwd]
  let dockerfile :=
    _dockerfile_template env job_mode kw.workdir kw.base_image_fn kw.package
      kw.requirements_path kw.setup_extras cred_path kw.jupyter_version
      kw.inject_notebook kw.shell_cmd kw.extra_dirs
  match engine with
  | .ok output =>
    match docker_image_id output with
    | some iid =>
      { cmd := cmd, dockerfile := dockerfile, outcome := .ok (some iid),
        logged := [] }
    | none =>
      { cmd := cmd, dockerfile := dockerfile, outcome := .error "IndexError",
        logged := [] }
  | .error e =>
    { cmd := cmd, dockerfile := dockerfile, outcome := .ok none,
      logged := [e.output, e.stderr] }

/-! ## Registry Publisher -/

/-- Result of `push_uuid_tag`: the Python-level result (`.error cmd` models
the `CalledProcessError` raised by `subprocess.run(cmd, check=True)`), plus
the list of engine commands actually invoked, in order. -/
structure PushResult where
  result : Except (List String) String
  invoked : List (List String)

/-- Source function `push_uuid_tag`; `engine` maps an invoked command to its
exit code. -/
def push_uuid_tag (engine : List String → Nat) (project_id image_id : String) :
    PushResult :=
  let image_tag := "gcr.io/" ++ project_id ++ "/" ++ image_id ++ ":latest"
  let tagCmd := ["docker", "tag", image_id, image_tag]
  if engine tagCmd ≠ 0 then
    { result := .error tagCmd, invoked := [tagCmd] }
  else
    let pushCmd := ["docker", "push", image_tag]
    if engine pushCmd ≠ 0 then
      { result := .error pushCmd, invoked := [tagCmd, pushCmd] }
    else
      { result := .ok image_tag, invoked := [tagCmd, pushCmd] }

/-! ## Run Orchestrator -/

def _run_cmd (job_mode : JobMode) (run_args : Option (List String)) :
    List String :=
  let run_args := run_args.getD []
  let runtime := if job_mode.isGpuMode then ["--runtime", "nvidia"] else []
  ["docker", "run"] ++ runtime ++ ["--ipc", "host"] ++ run_args

def _home_mount_cmds (env : Env) (enable_home_mount : Bool) : List String :=
  let ret := []
  if enable_home_mount then ["-v", env.home ++ ":/home/" ++ env.username]
  else ret

def _interactive_opts (env : Env) (workdir : String) : List String :=
  ["-w", workdir,
   "-u", toString env.uid ++ ":" ++ toString env.gid,
   "-v", env.cwd ++ ":" ++ workdir]

/-- The argument bundle `run_interactive` passes to `run`: the `docker run`
arguments, the entrypoint arguments, the optional prebuilt image, and the
keyword arguments forwarded to `build_image` (`shell_cmd`, `workdir`, plus
any notebook-related extras). -/
structure RunCall where
  job_mode : JobMode
  run_args : List String
  script_args : List String
  image_id : Option String
  shell_cmd : Option String
  workdir : Option String
  inject_notebook : Bool
  jupyter_version : Option String

/-- Source function `run`, restricted to its pure part: the full `docker run`
command vector it hands to `subprocess.call` once an image id is available. -/
def run_command (job_mode : JobMode) (run_args : List String)
    (image_id : String) (script_args : List String) : List String :=
  _run_cmd job_mode (some run_args) ++ [image_id] ++ script_args

/-- Source function `run_interactive`: resolves defaulted options and returns
the invocation it delegates to `run` (which forwards the build keyword
arguments to `build_image`). -/
def run_interactive (env : Env) (job_mode : JobMode) (workdir : Option String)
    (image_id : Option String) (run_args : Option (List String))
    (mount_home : Option Bool) (shell_cmd : Option String)
    (entrypoint : Option String) (entrypoint_args : Option (List String))
    (inject_notebook : Bool) (jupyter_version : Option String) : RunCall :=
  let workdir := workdir.getD DEFAULT_WORKDIR
  let run_args := run_args.getD []
  let entrypoint_args := entrypoint_args.getD []
  let mount_home := mount_home.getD true
  let shell_cmd :=
    match shell_cmd with
    | some s => s
    | none => if mount_home then default_shell env else "/bin/bash"
  let entrypoint := entrypoint.getD shell_cmd
  let interactive_run_args :=
    _interactive_opts env workdir ++ ["-it", "--entrypoint", entrypoint]
      ++ _home_mount_cmds env mount_home ++ run_args
  { job_mode := job_mode,
    run_args := interactive_run_args,
    script_args := entrypoint_args,
    image_id := image_id,
    shell_cmd := some shell_cmd,
    workdir := some workdir,
    inject_notebook := inject_notebook,
    jupyter_version := jupyter_version }

/-- The `run_interactive` keyword arguments a caller of `run_notebook` may
forward through `**run_interactive_kwargs`.  `entrypoint` and
`entrypoint_args` are included because a caller can put them in the
dictionary, but `run_notebook` also passes both explicitly, so Python raises
`TypeError: got multiple values` in that case. -/
structure InteractiveKwargs where
  workdir : Option String := none
  image_id : Option String := none
  mount_home : Option Bool := none
  shell_cmd : Option String := none
  entrypoint : Option String := none
  entrypoint_args : Option (List String) := none

/-- Source function `run_notebook`: resolves the port (default 8888) and
jupyter flavor, builds the jupyter argument vector and the port-publishing
docker arguments, and delegates to `run_interactive` with the entrypoint
fixed to `/opt/venv/bin/python`.  A caller-supplied `entrypoint` or
`entrypoint_args` in the forwarded keyword arguments collides with the
explicit ones and raises `TypeError`, modelled as `.error`. -/
def run_notebook (env : Env) (job_mode : JobMode) (port : Option Nat) (lab : Option Bool)
    (version : Option String) (run_args : Option (List String))
    (kw : InteractiveKwargs) : Except String RunCall :=
  if kw.entrypoint.isSome || kw.entrypoint_args.isSome then
    .error "TypeError: run_interactive got multiple values for keyword argument"
  else
    let port := port.getD 8888
    let lab := lab.getD false
    let run_args := run_args.getD []
    let jupyter_cmd := if lab then "lab" else "notebook"
    let jupyter_args :=
      ["-m", "jupyter", jupyter_cmd, "--ip=0.0.0.0",
       "--port=" ++ toString port, "--no-browser"]
    let docker_args := ["-p", toString port ++ ":" ++ toString port] ++ run_args
    .ok (run_interactive env job_mode kw.workdir kw.image_id (some docker_args)
      kw.mount_home kw.shell_cmd (some "/opt/venv/bin/python")
      (some jupyter_args) true version)

/-! ## Verification-layer definitions -/

/-- Contiguous-substring occurrence: `t` occurs somewhere inside `s`. -/
def occursIn (t s : String) : Prop :=
  ∃ p q, s = p ++ t ++ q

/-- Joins lines with a newline, the way a multi-line build output stream is
formed; when no element contains a newline itself, `joinLines ls` is the
string whose lines are exactly `ls`. -/
def joinLines : List String → String
  | [] => ""
  | [l] => l
  | l :: ls => l ++ "\n" ++ joinLines ls

/-! ## Helper lemmas -/

theorem occursIn_append_left {t s : String} (b : String) (h : occursIn t s) :
    occursIn t (s ++ b) := by
  obtain ⟨p, q, rfl⟩ := h
  exact ⟨p, q ++ b, by simp [String.append_assoc]⟩

theorem occursIn_append_right {t s : String} (a : String) (h : occursIn t s) :
    occursIn t (a ++ s) := by
  obtain ⟨p, q, rfl⟩ := h
  exact ⟨a ++ p, q, by simp [String.append_assoc]⟩

theorem str_tail_congr (a : String) {t1 t2 : String} (h : t1 = t2) :
    a ++ t1 = a ++ t2 := by rw [h]

theorem setup_block_pip (w : String) (u g : Nat) (es : List String) :
    occursIn ("pip install " ++ extras_string es ++ "\"")
      ("\nCOPY --chown=" ++ toString u ++ ":" ++ toString g ++ " setup.py " ++ w
        ++ "\nRUN /bin/bash -c \"pip install " ++ extras_string es ++ "\"\n") := by
  refine ⟨"\nCOPY --chown=" ++ toString u ++ ":" ++ toString g ++ " setup.py "
    ++ w ++ "\nRUN /bin/bash -c \"", "\n", ?_⟩
  simp only [String.append_assoc]
  refine str_tail_congr _ (str_tail_congr _ (str_tail_congr _ (str_tail_congr _
    (str_tail_congr _ (str_tail_congr _ ?_)))))
  have h1 : ("\"" : String) ++ "\n" = "\"\n" := by decide
  have h2 : ("\nRUN /bin/bash -c \"" : String) ++ "pip install "
      = "\nRUN /bin/bash -c \"pip install " := by decide
  rw [← h1, ← h2]
  simp only [String.append_assoc]

theorem dependency_entries_decomp (w : String) (u g : Nat) (req : Option String)
    (es : List String) :
    _dependency_entries w u g req (some es) =
      ("\nCOPY --chown=" ++ toString u ++ ":" ++ toString g ++ " setup.py " ++ w
        ++ "\nRUN /bin/bash -c \"pip install " ++ extras_string es ++ "\"\n")
      ++ _dependency_entries w u g req none := by
  cases req <;>
    simp only [_dependency_entries, String.empty_append, String.append_empty,
      String.append_assoc]

theorem splitlinesAux_no_nl (l : List Char) (h : '\n' ∉ l) :
    ∀ cur, splitlinesAux cur l = [cur.reverse ++ l] := by
  induction l with
  | nil => intro cur; simp [splitlinesAux]
  | cons c rest ih =>
    intro cur
    have hc : c ≠ '\n' := fun hh => h (hh ▸ List.mem_cons_self c rest)
    have hrest : '\n' ∉ rest := fun hh => h (List.mem_cons_of_mem c hh)
    simp [splitlinesAux, hc, ih hrest]

theorem splitlinesAux_nl_term (l : List Char) (h : '\n' ∉ l) :
    ∀ cur, splitlinesAux cur (l ++ ['\n']) = [cur.reverse ++ l] := by
  induction l with
  | nil => intro cur; simp [splitlinesAux]
  | cons c rest ih =>
    intro cur
    have hc : c ≠ '\n' := fun hh => h (hh ▸ List.mem_cons_self c rest)
    have hrest : '\n' ∉ rest := fun hh => h (List.mem_cons_of_mem c hh)
    simp [splitlinesAux, hc, ih hrest]

theorem splitlinesAux_break (l : List Char) (h : '\n' ∉ l) :
    ∀ rest, rest ≠ [] → ∀ cur,
      splitlinesAux cur (l ++ '\n' :: rest)
        = (cur.reverse ++ l) :: splitlinesAux [] rest := by
  induction l with
  | nil =>
    intro rest hr cur
    simp [splitlinesAux, hr]
  | cons c l' ih =>
    intro rest hr cur
    have hc : c ≠ '\n' := fun hh => h (hh ▸ List.mem_cons_self c l')
    have hl' : '\n' ∉ l' := fun hh => h (List.mem_cons_of_mem c hh)
    simp [splitlinesAux, hc, ih hl' rest hr]

theorem data_ne_nil_of_ne_empty {s : String} (h : s ≠ "") : s.data ≠ [] := by
  intro hd
  exact h (by cases s; simp_all)

theorem pysplitlines_join (ls : List String) (L : String)
    (h : ∀ l ∈ ls, '\n' ∉ l.data) (hL : '\n' ∉ L.data) (hLne : L ≠ "") :
    pysplitlines (joinLines (ls ++ [L])).data = ls.map String.data ++ [L.data] := by
  induction ls with
  | nil =>
    have hJ : joinLines [L] = L := rfl
    rw [List.nil_append, hJ]
    unfold pysplitlines
    rw [if_neg (data_ne_nil_of_ne_empty hLne)]
    simp [splitlinesAux_no_nl L.data hL]
  | cons l ls ih =>
    have hl : '\n' ∉ l.data := h l (List.mem_cons_self l ls)
    have hls : ∀ x ∈ ls, '\n' ∉ x.data := fun x hx => h x (List.mem_cons_of_mem l hx)
    have hjoin : joinLines ((l :: ls) ++ [L]) = l ++ "\n" ++ joinLines (ls ++ [L]) := by
      cases ls <;> rfl
    have hrest : (joinLines (ls ++ [L])).data ≠ [] := by
      intro hd
      have hh := ih hls
      rw [hd] at hh
      simp [pysplitlines] at hh
    rw [hjoin]
    have hdata : (l ++ "\n" ++ joinLines (ls ++ [L])).data
        = l.data ++ '\n' :: (joinLines (ls ++ [L])).data := by
      simp [String.data_append]
    rw [hdata]
    unfold pysplitlines
    rw [if_neg (by simp)]
    rw [splitlinesAux_break l.data hl _ hrest []]
    have hback : splitlinesAux [] (joinLines (ls ++ [L])).data
        = pysplitlines (joinLines (ls ++ [L])).data := by
      unfold pysplitlines
      rw [if_neg hrest]
    rw [hback, ih hls]
    simp

theorem pysplitlines_join_nl (ls : List String) (L : String)
    (h : ∀ l ∈ ls, '\n' ∉ l.data) (hL : '\n' ∉ L.data) :
    pysplitlines (joinLines (ls ++ [L]) ++ "\n").data
      = ls.map String.data ++ [L.data] := by
  induction ls with
  | nil =>
    have hJ : joinLines [L] = L := rfl
    rw [List.nil_append, hJ]
    have hdata : (L ++ "\n").data = L.data ++ ['\n'] := by simp [String.data_append]
    unfold pysplitlines
    rw [hdata, if_neg (by simp)]
    simp [splitlinesAux_nl_term L.data hL]
  | cons l ls ih =>
    have hl : '\n' ∉ l.data := h l (List.mem_cons_self l ls)
    have hls : ∀ x ∈ ls, '\n' ∉ x.data := fun x hx => h x (List.mem_cons_of_mem l hx)
    have hjoin : joinLines ((l :: ls) ++ [L]) = l ++ "\n" ++ joinLines (ls ++ [L]) := by
      cases ls <;> rfl
    rw [hjoin]
    have hassoc : l ++ "\n" ++ joinLines (ls ++ [L]) ++ "\n"
        = l ++ "\n" ++ (joinLines (ls ++ [L]) ++ "\n") := by
      simp [String.append_assoc]
    rw [hassoc]
    have hdata : (l ++ "\n" ++ (joinLines (ls ++ [L]) ++ "\n")).data
        = l.data ++ '\n' :: (joinLines (ls ++ [L]) ++ "\n").data := by
      simp [String.data_append]
    have hrest : (joinLines (ls ++ [L]) ++ "\n").data ≠ [] := by
      simp [String.data_append]
    unfold pysplitlines
    rw [hdata, if_neg (by simp)]
    rw [splitlinesAux_break l.data hl _ hrest []]
    have hback : splitlinesAux [] (joinLines (ls ++ [L]) ++ "\n").data
        = pysplitlines (joinLines (ls ++ [L]) ++ "\n").data := by
      unfold pysplitlines
      rw [if_neg hrest]
    rw [hback, ih hls]
    simp

theorem splitWsAux_all_ws (l : List Char) (h : ∀ c ∈ l, c.isWhitespace) :
    splitWsAux [] l = [] := by
  induction l with
  | nil => simp [splitWsAux]
  | cons c rest ih =>
    have hc := h c (List.mem_cons_self c rest)
    have hrest : ∀ x ∈ rest, x.isWhitespace := fun x hx => h x (List.mem_cons_of_mem c hx)
    simp [splitWsAux, hc, ih hrest]

/-! ## Claim theorems -/

/-- C1: for every combination of selected options (requirements path, setup
extras, notebook flag, credentials path, extra directories, shell command,
package), the text composed by `_dockerfile_template` is exactly the preamble
followed by the join of the fragment list in the fixed relative order of spec
section 4.2 — dependency installation, then notebook, then credentials, then
extra directories, then custom shell, then package/entrypoint — so the
fragments that appear occur in that order regardless of how the options were
supplied. -/
theorem dockerfile_fragment_order (env : Env) (m : JobMode) (w : Option String)
    (bfn : Option (JobMode → String)) (pkg : Option Package) (req : Option String)
    (ext : Option (List String)) (creds : Option String) (jv : Option String)
    (nb : Bool) (sh : Option String) (dirs : Option (List String)) :
    _dockerfile_template env m w bfn pkg req ext creds jv nb sh dirs =
      dockerfilePreamble ((bfn.getD base_image_id) m) env.uid env.gid
        env.username (w.getD DEFAULT_WORKDIR)
        ++ String.join (orderedFragments (w.getD DEFAULT_WORKDIR) env.uid env.gid
            pkg req ext creds jv nb sh dirs) := by
  unfold _dockerfile_template orderedFragments
  cases nb <;> cases creds <;> cases dirs <;> cases pkg <;>
    simp [String.join, List.foldl, String.append_empty, String.empty_append,
      String.append_assoc]

/-- C2, counterexample: `docker_image_id` takes the last line produced by
`splitlines`, not the last non-empty line, so an output whose last non-empty
line is `Successfully built ab12cd34` but which ends with a trailing empty
line does not yield `ab12cd34` (the code raises `IndexError`, modelled as
`none`). -/
theorem docker_image_id_trailing_blank_line :
    docker_image_id "Successfully built ab12cd34\n\n" ≠ some "ab12cd34" := by
  decide

/-- C2, amended: for every build-output string whose final line (in the
`splitlines` sense, so a single trailing newline is allowed but a trailing
empty line is not) is `Successfully built ab12cd34`, `docker_image_id`
returns `ab12cd34`. -/
theorem docker_image_id_last_line (ls : List String)
    (h : ∀ l ∈ ls, '\n' ∉ l.data) :
    docker_image_id (joinLines (ls ++ ["Successfully built ab12cd34"]))
        = some "ab12cd34" ∧
    docker_image_id (joinLines (ls ++ ["Successfully built ab12cd34"]) ++ "\n")
        = some "ab12cd34" := by
  constructor
  · unfold docker_image_id
    rw [pysplitlines_join ls _ h (by decide) (by decide)]
    rw [List.getLast?_concat]
    show (((pysplit "Successfully built ab12cd34".data).getLast?).map String.mk)
      = some "ab12cd34"
    decide
  · unfold docker_image_id
    rw [pysplitlines_join_nl ls _ h (by decide)]
    rw [List.getLast?_concat]
    show (((pysplit "Successfully built ab12cd34".data).getLast?).map String.mk)
      = some "ab12cd34"
    decide

/-- Witness for C2's amended theorem at the concrete multi-line output
`"Step 1\n\nSuccessfully built ab12cd34"`, with and without a final
newline. -/
theorem docker_image_id_last_line_witness :
    docker_image_id (joinLines (["Step 1", ""] ++ ["Successfully built ab12cd34"]))
        = some "ab12cd34" ∧
    docker_image_id
        (joinLines (["Step 1", ""] ++ ["Successfully built ab12cd34"]) ++ "\n")
        = some "ab12cd34" :=
  docker_image_id_last_line ["Step 1", ""] (by decide)

/-- C3: on an empty input, or an input all of whose lines consist only of
whitespace (so no usable token exists), `docker_image_id` fails — the
modelled `IndexError`, i.e. `none` — rather than returning any identifier. -/
theorem docker_image_id_no_usable_token (output : String)
    (h : ∀ l ∈ pysplitlines output.data, ∀ c ∈ l, c.isWhitespace) :
    docker_image_id output = none := by
  unfold docker_image_id
  cases hq : (pysplitlines output.data).getLast? with
  | none => simp
  | some last =>
    have hmem : last ∈ pysplitlines output.data := by
      obtain ⟨hne, heq⟩ := List.mem_getLast?_eq_getLast (Option.mem_def.mpr hq)
      exact heq ▸ List.getLast_mem hne
    simp [pysplit, splitWsAux_all_ws last (h last hmem)]

/-- Witness for C3 at the concrete whitespace-only output `" \n \n"`. -/
theorem docker_image_id_no_usable_token_witness :
    docker_image_id " \n \n" = none :=
  docker_image_id_no_usable_token " \n \n" (by decide)

/-- C4 (evidence for the code bug): when the engine's build process exits
non-zero, `build_image` captures and logs both output streams, but then
swallows the exception and returns Python `None` (`.ok none`) instead of
surfacing a failure to the caller — although its own docstring says "throws
on error".  On success it returns the extracted image id. -/
theorem build_image_swallows_engine_failure :
    ((build_image ⟨1000, 1000, "totoro", some "/bin/zsh", "/home/totoro", "/proj"⟩
        JobMode.cpu (.error ⟨"step output", "error stream"⟩) none {}).logged
      = ["step output", "error stream"]) ∧
    ((build_image ⟨1000, 1000, "totoro", some "/bin/zsh", "/home/totoro", "/proj"⟩
        JobMode.cpu (.error ⟨"step output", "error stream"⟩) none {}).outcome
      = .ok none) ∧
    ((build_image ⟨1000, 1000, "totoro", some "/bin/zsh", "/home/totoro", "/proj"⟩
        JobMode.cpu (.ok "Successfully built ab12cd34") none {}).outcome
      = .ok (some "ab12cd34")) := by
  exact ⟨rfl, rfl, rfl⟩

/-- C5: the dependency fragment's setup-based install command has argument
exactly `.` for an empty extras list (no bracketed suffix — the closing
quote follows the dot directly), argument `.[gpu,viz]` for the extras list
`["gpu","viz"]`, and an absent (`none`) extras value emits no setup-based
install step at all: the fragment is empty when no requirements path is
given, and exactly the requirements block otherwise. -/
theorem dependency_fragment_extras (w : String) (u g : Nat)
    (req : Option String) :
    extras_string [] = "." ∧
    extras_string ["gpu", "viz"] = ".[gpu,viz]" ∧
    occursIn "pip install .\"" (_dependency_entries w u g req (some [])) ∧
    occursIn "pip install .[gpu,viz]\""
      (_dependency_entries w u g req (some ["gpu", "viz"])) ∧
    _dependency_entries w u g none none = "" ∧
    (∀ rp, _dependency_entries w u g (some rp) none =
      "\nCOPY --chown=" ++ toString u ++ ":" ++ toString g ++ " " ++ rp ++ " "
        ++ w ++ "\nRUN /bin/bash -c \"pip install -r " ++ rp ++ "\"\n") := by
  refine ⟨by decide, by decide, ?_, ?_, by simp [_dependency_entries], ?_⟩
  · rw [dependency_entries_decomp]
    apply occursIn_append_left
    have h : ("pip install " ++ extras_string [] ++ "\"") = "pip install .\"" := by
      decide
    rw [← h]
    exact setup_block_pip w u g []
  · rw [dependency_entries_decomp]
    apply occursIn_append_left
    have h : ("pip install " ++ extras_string ["gpu", "viz"] ++ "\"")
        = "pip install .[gpu,viz]\"" := by decide
    rw [← h]
    exact setup_block_pip w u g ["gpu", "viz"]
  · intro rp
    simp [_dependency_entries, String.empty_append]

/-- C6: when no optional fragment is selected (no requirements path, no setup
extras, notebook flag off, no credentials path, no extra directories, no
shell command, no package), the composed build specification is exactly the
preamble block and nothing else. -/
theorem dockerfile_no_fragments (env : Env) (m : JobMode) (w : Option String)
    (bfn : Option (JobMode → String)) :
    _dockerfile_template env m w bfn none none none none none false none none =
      dockerfilePreamble ((bfn.getD base_image_id) m) env.uid env.gid
        env.username (w.getD DEFAULT_WORKDIR) := by
  unfold _dockerfile_template _dependency_entries _custom_shell_entries
  simp [String.append_empty]

/-- C7: for project id `my-proj` and image id `ab12cd34`, `push_uuid_tag`
constructs the qualified tag `gcr.io/my-proj/ab12cd34:latest` and returns it
when both engine steps succeed; when the tag step exits non-zero the whole
operation fails with that failure surfaced, and the push command is never
invoked. -/
theorem push_uuid_tag_spec (engine : List String → Nat) :
    (engine ["docker", "tag", "ab12cd34", "gcr.io/my-proj/ab12cd34:latest"] = 0 →
      engine ["docker", "push", "gcr.io/my-proj/ab12cd34:latest"] = 0 →
      (push_uuid_tag engine "my-proj" "ab12cd34").result
        = .ok "gcr.io/my-proj/ab12cd34:latest") ∧
    (engine ["docker", "tag", "ab12cd34", "gcr.io/my-proj/ab12cd34:latest"] ≠ 0 →
      (push_uuid_tag engine "my-proj" "ab12cd34").result
          = .error ["docker", "tag", "ab12cd34", "gcr.io/my-proj/ab12cd34:latest"] ∧
        ["docker", "push", "gcr.io/my-proj/ab12cd34:latest"]
          ∉ (push_uuid_tag engine "my-proj" "ab12cd34").invoked) := by
  have htag : ("gcr.io/" ++ "my-proj" ++ "/" ++ "ab12cd34" ++ ":latest")
      = "gcr.io/my-proj/ab12cd34:latest" := by decide
  unfold push_uuid_tag
  rw [htag]
  constructor
  · intro h1 h2
    simp [h1, h2]
  · intro h1
    simp [h1]

/-- Witness for C7: a concrete always-succeeding engine returns the qualified
tag, and a concrete always-failing engine fails at the tag step without the
push command being invoked. -/
theorem push_uuid_tag_witness :
    ((push_uuid_tag (fun _ => 0) "my-proj" "ab12cd34").result
        = .ok "gcr.io/my-proj/ab12cd34:latest") ∧
    ((push_uuid_tag (fun _ => 1) "my-proj" "ab12cd34").result
        = .error ["docker", "tag", "ab12cd34", "gcr.io/my-proj/ab12cd34:latest"] ∧
      ["docker", "push", "gcr.io/my-proj/ab12cd34:latest"]
        ∉ (push_uuid_tag (fun _ => 1) "my-proj" "ab12cd34").invoked) :=
  ⟨(push_uuid_tag_spec (fun _ => 0)).1 rfl rfl,
   (push_uuid_tag_spec (fun _ => 1)).2 (by decide)⟩

/-- C8: in an interactive run with no shell supplied, when home mounting is
enabled — whether by default (`none`) or explicitly (`some true`) — the shell
from the `SHELL` environment variable (falling back to `/bin/bash` when
unset) is forwarded as the shell to install and used as the container
entrypoint; when home mounting is disabled (`some false`), the fixed
`/bin/bash` is used for both, regardless of the environment shell. -/
theorem run_interactive_shell_selection (env : Env) (m : JobMode)
    (w iid : Option String) (ra ea : Option (List String)) (nb : Bool)
    (jv : Option String) :
    ((run_interactive env m w iid ra none none none ea nb jv).shell_cmd
        = some (env.shell.getD "/bin/bash") ∧
      ∃ p q, (run_interactive env m w iid ra none none none ea nb jv).run_args
        = p ++ ["--entrypoint", env.shell.getD "/bin/bash"] ++ q) ∧
    ((run_interactive env m w iid ra (some true) none none ea nb jv).shell_cmd
        = some (env.shell.getD "/bin/bash") ∧
      ∃ p q, (run_interactive env m w iid ra (some true) none none ea nb jv).run_args
        = p ++ ["--entrypoint", env.shell.getD "/bin/bash"] ++ q) ∧
    ((run_interactive env m w iid ra (some false) none none ea nb jv).shell_cmd
        = some "/bin/bash" ∧
      ∃ p q, (run_interactive env m w iid ra (some false) none none ea nb jv).run_args
        = p ++ ["--entrypoint", "/bin/bash"] ++ q) := by
  refine ⟨⟨?_, ?_⟩, ⟨?_, ?_⟩, ⟨?_, ?_⟩⟩
  · simp [run_interactive, default_shell]
  · refine ⟨["-w", w.getD DEFAULT_WORKDIR, "-u",
      toString env.uid ++ ":" ++ toString env.gid, "-v",
      env.cwd ++ ":" ++ w.getD DEFAULT_WORKDIR, "-it"],
      _home_mount_cmds env true ++ ra.getD [], ?_⟩
    simp [run_interactive, default_shell, _interactive_opts, List.append_assoc]
  · simp [run_interactive, default_shell]
  · refine ⟨["-w", w.getD DEFAULT_WORKDIR, "-u",
      toString env.uid ++ ":" ++ toString env.gid, "-v",
      env.cwd ++ ":" ++ w.getD DEFAULT_WORKDIR, "-it"],
      _home_mount_cmds env true ++ ra.getD [], ?_⟩
    simp [run_interactive, default_shell, _interactive_opts, List.append_assoc]
  · simp [run_interactive, default_shell]
  · refine ⟨["-w", w.getD DEFAULT_WORKDIR, "-u",
      toString env.uid ++ ":" ++ toString env.gid, "-v",
      env.cwd ++ ":" ++ w.getD DEFAULT_WORKDIR, "-it"],
      _home_mount_cmds env false ++ ra.getD [], ?_⟩
    simp [run_interactive, default_shell, _interactive_opts, List.append_assoc]

/-- C9: every notebook run that actually happens — i.e. every `run_notebook`
call that reaches the delegated `run_interactive` invocation rather than
raising `TypeError` on a caller-supplied entrypoint override — publishes the
chosen port (default 8888) with the same number on the host and container
sides of the `-p` flag, and sets the container entrypoint to the fixed
interpreter path `/opt/venv/bin/python`. -/
theorem run_notebook_fixed_port_entrypoint (env : Env) (m : JobMode)
    (port : Option Nat) (lab : Option Bool) (version : Option String)
    (ra : Option (List String)) (kw : InteractiveKwargs) (rc : RunCall)
    (h : run_notebook env m port lab version ra kw = .ok rc) :
    (∃ p q, rc.run_args
      = p ++ ["-p", toString (port.getD 8888) ++ ":" ++ toString (port.getD 8888)]
        ++ q) ∧
    (∃ p q, rc.run_args = p ++ ["--entrypoint", "/opt/venv/bin/python"] ++ q) := by
  unfold run_notebook at h
  by_cases hko : kw.entrypoint.isSome || kw.entrypoint_args.isSome
  · rw [if_pos hko] at h
    exact absurd h (by simp)
  · rw [if_neg hko] at h
    have hrc := (Except.ok.inj h).symm
    subst hrc
    constructor
    · refine ⟨_interactive_opts env (kw.workdir.getD DEFAULT_WORKDIR)
        ++ ["-it", "--entrypoint", "/opt/venv/bin/python"]
        ++ _home_mount_cmds env (kw.mount_home.getD true), ra.getD [], ?_⟩
      simp [run_interactive, List.append_assoc]
    · refine ⟨_interactive_opts env (kw.workdir.getD DEFAULT_WORKDIR) ++ ["-it"],
        _home_mount_cmds env (kw.mount_home.getD true)
          ++ (["-p", toString (port.getD 8888) ++ ":" ++ toString (port.getD 8888)]
            ++ ra.getD []), ?_⟩
      simp [run_interactive, List.append_assoc]

/-- Witness for C9 at a concrete environment with all options defaulted: the
run carries the `-p 8888:8888` mapping and the fixed interpreter
entrypoint. -/
theorem run_notebook_witness :
    ∃ rc, run_notebook ⟨1000, 1000, "totoro", some "/bin/zsh", "/home/totoro", "/proj"⟩
        JobMode.cpu none none none none {} = .ok rc ∧
      (∃ p q, rc.run_args = p ++ ["-p", "8888:8888"] ++ q) ∧
      (∃ p q, rc.run_args = p ++ ["--entrypoint", "/opt/venv/bin/python"] ++ q) := by
  refine ⟨_, rfl, ?_⟩
  have h8 : toString ((none : Option Nat).getD 8888) ++ ":"
      ++ toString ((none : Option Nat).getD 8888) = "8888:8888" := by decide
  have hmain := run_notebook_fixed_port_entrypoint
    ⟨1000, 1000, "totoro", some "/bin/zsh", "/home/totoro", "/proj"⟩
    JobMode.cpu none none none none {} _ rfl
  rw [h8] at hmain
  exact hmain

/-- C10: `base_extras` returns `none` when the path does not exist; when the
path exists it returns the supplied extras list unchanged if the
mode-specific extra (`gpu` in GPU mode, `cpu` otherwise) is already a member,
and otherwise returns the list with that extra prepended at the front, an
absent extras list being treated as empty. -/
theorem base_extras_cases (fs : String → Bool) (m : JobMode) (path : String)
    (extras : Option (List String)) :
    base_extras fs m path extras =
      if fs path then
        (if (if m.isGpuMode then "gpu" else "cpu") ∈ extras.getD []
         then some (extras.getD [])
         else some ((if m.isGpuMode then "gpu" else "cpu") :: extras.getD []))
      else none := by
  unfold base_extras
  by_cases h : fs path <;> simp [h, List.elem_iff]
